import Mathlib

/-!
Shallow embedding of `src/config.rs` of the routinator repository, together
with a model (from the specification) of the VRP store/history and the RTR
serial-query handling, which are not part of the sources provided.

Conventions:
* `process::exit(code)` is modelled by the `PResult.exit code` constructor;
  all functions that may terminate the process return a `PResult`.
* Rust `Duration` values are modelled by their whole number of seconds.
* Rust `PathBuf` is modelled by `RPath`: an absoluteness flag plus the list
  of path components.  `RPath.join` follows `std::path::Path::join`: joining
  with an absolute path replaces the receiver.
* The TOML parser, the file system, the home directory and `num_cpus::get()`
  are external to the repository and appear as parameters.
-/

/-- Result of a computation that may terminate the whole process,
modelling Rust's `process::exit`. -/
inductive PResult (α : Type) where
  | ok (val : α)
  | exit (code : Nat)
deriving DecidableEq

def PResult.map {α β : Type} (f : α → β) : PResult α → PResult β
  | .ok v => .ok (f v)
  | .exit c => .exit c

def PResult.isOk {α : Type} : PResult α → Bool
  | .ok _ => true
  | .exit _ => false

/-- Model of `std::path::PathBuf`: whether the path is absolute plus its
components. -/
structure RPath where
  absolute : Bool
  components : List String
deriving DecidableEq

/-- `Path::join`: if the argument is absolute it replaces the receiver. -/
def RPath.join (a b : RPath) : RPath :=
  if b.absolute then b else ⟨a.absolute, a.components ++ b.components⟩

/-- `Path::is_relative`. -/
def RPath.is_relative (a : RPath) : Bool := !a.absolute

/-- `Path::parent`: drops the last component; `none` when there is none. -/
def RPath.parent (a : RPath) : Option RPath :=
  match a.components with
  | [] => none
  | _ => some ⟨a.absolute, a.components.dropLast⟩

/-- Splitting a character list at every `/`. -/
def splitSlash : List Char → List (List Char)
  | [] => [[]]
  | c :: rest =>
    if c = '/' then [] :: splitSlash rest
    else
      match splitSlash rest with
      | g :: gs => (c :: g) :: gs
      | [] => [[c]]

/-- Conversion of a path string to an `RPath` (model of `Path::new`):
absolute iff it starts with a slash, components are the non-empty
slash-separated segments. -/
def strToPath (s : String) : RPath :=
  ⟨(match s.data with | '/' :: _ => true | _ => false),
    ((splitSlash s.data).filter (fun g => g ≠ [])).map (fun g => ⟨g⟩)⟩

/-- Model of `std::time::Duration` (whole seconds only; the config code only
ever builds durations with `Duration::from_secs`). -/
structure Duration where
  secs : Nat
deriving DecidableEq

/-- `Duration::from_secs`. -/
def Duration.from_secs (n : Nat) : Duration := ⟨n⟩

/-- Model of `std::net::SocketAddr` as far as the config code needs it. -/
structure SocketAddr where
  host : String
  port : Nat
deriving DecidableEq

/-- Model of `log::LevelFilter`. -/
inductive LevelFilter where
  | off | error | warn | info | debug | trace
deriving DecidableEq

/-- Model of `LevelFilter::from_str` (case insensitive names, as in the
`log` crate). -/
def levelFilterFromStr (s : String) : Option LevelFilter :=
  match s.toLower with
  | "off" => some .off
  | "error" => some .error
  | "warn" => some .warn
  | "info" => some .info
  | "debug" => some .debug
  | "trace" => some .trace
  | _ => none

/-- Model of `syslog::Facility`. -/
inductive Facility where
  | kern | user | mail | daemon | auth | syslogd | lpr | news | uucp
  | cron | authpriv | ftp
  | local0 | local1 | local2 | local3 | local4 | local5 | local6 | local7
deriving DecidableEq

/-- Model of `Facility::from_str` from the external `syslog` crate. -/
def facilityFromStr (s : String) : Option Facility :=
  match s with
  | "kern" => some .kern
  | "user" => some .user
  | "mail" => some .mail
  | "daemon" => some .daemon
  | "auth" => some .auth
  | "syslog" => some .syslogd
  | "lpr" => some .lpr
  | "news" => some .news
  | "uucp" => some .uucp
  | "cron" => some .cron
  | "authpriv" => some .authpriv
  | "ftp" => some .ftp
  | "local0" => some .local0
  | "local1" => some .local1
  | "local2" => some .local2
  | "local3" => some .local3
  | "local4" => some .local4
  | "local5" => some .local5
  | "local6" => some .local6
  | "local7" => some .local7
  | _ => none

/-- The `LogTarget` enum of `config.rs`. -/
inductive LogTarget where
  | default (fac : Facility)
  | syslog (fac : Facility)
  | stderr
  | file (p : RPath)
deriving DecidableEq

/-- Model of `u64::from_str` (also used for `usize` on a 64-bit target):
an optional leading plus sign, then at least one decimal digit, rejecting
overflow past `2^64 - 1`. -/
def parseU64 (s : String) : Option Nat :=
  let cs := match s.data with
    | '+' :: rest => rest
    | cs => cs
  if cs = [] then none
  else if cs.all (fun c => c.isDigit) then
    let v := cs.foldl (fun acc c => acc * 10 + (c.toNat - 48)) 0
    if v < 2 ^ 64 then some v else none
  else none

/-- Model of `SocketAddr::from_str` from the standard library:
`host:port` with a numeric port below 65536. -/
def parseSocketAddr (s : String) : Option SocketAddr :=
  match s.splitOn ":" with
  | [h, p] =>
    if h = "" then none
    else match parseU64 p with
      | some n => if n < 65536 then some ⟨h, n⟩ else none
      | none => none
  | _ => none

/-- Model of TOML values (`toml::Value`). -/
inductive TomlValue where
  | integer (i : Int)
  | string (s : String)
  | boolean (b : Bool)
  | array (vs : List TomlValue)
  | table (vs : List (String × TomlValue))

/-- Lookup in the association list modelling `toml::value::Table`. -/
def assocLookup (key : String) : List (String × TomlValue) → Option TomlValue
  | [] => none
  | (k, v) :: rest => if k = key then some v else assocLookup key rest

/-- Removal from the association list modelling `toml::value::Table`. -/
def assocRemove (key : String) : List (String × TomlValue) →
    List (String × TomlValue)
  | [] => []
  | (k, v) :: rest =>
    if k = key then rest else (k, v) :: assocRemove key rest

/-- The defaults of `config.rs` lines 21-26. -/
def DEFAULT_STRICT : Bool := false

def DEFAULT_RSYNC_COUNT : Nat := 4

def DEFAULT_REFRESH : Nat := 3600

def DEFAULT_RETRY : Nat := 600

def DEFAULT_EXPIRE : Nat := 7200

def DEFAULT_HISTORY_SIZE : Nat := 10

/-- The `Config` struct of `config.rs`. -/
structure Config where
  cache_dir : RPath
  tal_dir : RPath
  exceptions : List RPath
  strict : Bool
  rsync_count : Nat
  validation_threads : Nat
  refresh : Duration
  retry : Duration
  expire : Duration
  history_size : Nat
  tcp_listen : List SocketAddr
  log_level : LevelFilter
  log_target : LogTarget
deriving DecidableEq

/-- The `ConfigFile` struct of `config.rs`. -/
structure ConfigFile where
  content : List (String × TomlValue)
  path : RPath
  dir : RPath

/-- `self.content.remove(key)` on a `ConfigFile`: the removed value (if any)
together with the updated file. -/
def ConfigFile.removeKey (cf : ConfigFile) (key : String) :
    Option TomlValue × ConfigFile :=
  (assocLookup key cf.content, { cf with content := assocRemove key cf.content })

/-- `ConfigFile::take_bool` (config.rs lines 711-724). -/
def ConfigFile.take_bool (cf : ConfigFile) (key : String) :
    PResult (Option Bool × ConfigFile) :=
  match cf.removeKey key with
  | (none, cf') => .ok (none, cf')
  | (some v, cf') =>
    match v with
    | .boolean b => .ok (some b, cf')
    | _ => .exit 1

/-- `ConfigFile::take_u64` (config.rs lines 726-749): a negative integer or
a non-integer value terminates the process. -/
def ConfigFile.take_u64 (cf : ConfigFile) (key : String) :
    PResult (Option Nat × ConfigFile) :=
  match cf.removeKey key with
  | (none, cf') => .ok (none, cf')
  | (some v, cf') =>
    match v with
    | .integer i => if i < 0 then .exit 1 else .ok (some i.toNat, cf')
    | _ => .exit 1

/-- `is_large_i64` for a 64-bit target (config.rs lines 948-951). -/
def is_large_i64 (_ : Int) : Bool := false

/-- `ConfigFile::take_usize` (config.rs lines 751-780). -/
def ConfigFile.take_usize (cf : ConfigFile) (key : String) :
    PResult (Option Nat × ConfigFile) :=
  match cf.removeKey key with
  | (none, cf') => .ok (none, cf')
  | (some v, cf') =>
    match v with
    | .integer i =>
      if i < 0 then .exit 1
      else if is_large_i64 i then .exit 1
      else .ok (some i.toNat, cf')
    | _ => .exit 1

/-- `ConfigFile::take_string` (config.rs lines 782-795). -/
def ConfigFile.take_string (cf : ConfigFile) (key : String) :
    PResult (Option String × ConfigFile) :=
  match cf.removeKey key with
  | (none, cf') => .ok (none, cf')
  | (some v, cf') =>
    match v with
    | .string s => .ok (some s, cf')
    | _ => .exit 1

/-- `ConfigFile::take_from_str` (config.rs lines 797-812), with the
`FromStr` implementation passed in as `parse`. -/
def ConfigFile.take_from_str {α : Type} (parse : String → Option α)
    (cf : ConfigFile) (key : String) : PResult (Option α × ConfigFile) :=
  match cf.take_string key with
  | .exit c => .exit c
  | .ok (none, cf') => .ok (none, cf')
  | .ok (some s, cf') =>
    match parse s with
    | some v => .ok (some v, cf')
    | none => .exit 1

/-- `ConfigFile::take_path` (config.rs lines 814-816): resolves the string
value against `self.dir`. -/
def ConfigFile.take_path (cf : ConfigFile) (key : String) :
    PResult (Option RPath × ConfigFile) :=
  match cf.take_string key with
  | .exit c => .exit c
  | .ok (none, cf') => .ok (none, cf')
  | .ok (some s, cf') => .ok (some (cf'.dir.join (strToPath s)), cf')

/-- `ConfigFile::take_mandatory_path` (config.rs lines 818-829). -/
def ConfigFile.take_mandatory_path (cf : ConfigFile) (key : String) :
    PResult (RPath × ConfigFile) :=
  match cf.take_path key with
  | .exit c => .exit c
  | .ok (none, _) => .exit 1
  | .ok (some p, cf') => .ok (p, cf')

/-- The element loop of `ConfigFile::take_path_array`: every element must be
a TOML string and is resolved against `dir`. -/
def mapPathValues (dir : RPath) : List TomlValue → PResult (List RPath)
  | [] => .ok []
  | v :: rest =>
    match v with
    | .string s => (mapPathValues dir rest).map (dir.join (strToPath s) :: ·)
    | _ => .exit 1

/-- `ConfigFile::take_path_array` (config.rs lines 831-859). -/
def ConfigFile.take_path_array (cf : ConfigFile) (key : String) :
    PResult (List RPath × ConfigFile) :=
  match cf.removeKey key with
  | (none, cf') => .ok ([], cf')
  | (some v, cf') =>
    match v with
    | .array vs =>
      match mapPathValues cf'.dir vs with
      | .ok l => .ok (l, cf')
      | .exit c => .exit c
    | _ => .exit 1

/-- The element loop of `ConfigFile::take_from_str_array`. -/
def mapFromStrValues {α : Type} (parse : String → Option α) :
    List TomlValue → PResult (List α)
  | [] => .ok []
  | v :: rest =>
    match v with
    | .string s =>
      match parse s with
      | some x => (mapFromStrValues parse rest).map (x :: ·)
      | none => .exit 1
    | _ => .exit 1

/-- `ConfigFile::take_from_str_array` (config.rs lines 861-900). -/
def ConfigFile.take_from_str_array {α : Type} (parse : String → Option α)
    (cf : ConfigFile) (key : String) : PResult (List α × ConfigFile) :=
  match cf.removeKey key with
  | (none, cf') => .ok ([], cf')
  | (some v, cf') =>
    match v with
    | .array vs =>
      match mapFromStrValues parse vs with
      | .ok l => .ok (l, cf')
      | .exit c => .exit c
    | _ => .exit 1

/-- `ConfigFile::check_exhausted` (config.rs lines 902-921): any remaining
key terminates the process. -/
def ConfigFile.check_exhausted (cf : ConfigFile) : PResult Unit :=
  if cf.content.isEmpty then .ok () else .exit 1

/-- Outcome of opening and reading a file, modelling the file system. -/
inductive FileOutcome where
  | absent
  | unreadable
  | readable (content : String)

/-- `ConfigFile::read` (config.rs lines 659-709).  `tomlParse` models the
external `toml` crate, `fs` the file system outcome for `path`, and
`curDir` the (successfully determined) current directory.  An absent file
yields `ok none`; a present but unreadable file terminates the process; a
parse failure or a non-table top level terminates the process.  The `dir`
field is `path.join(cur_dir).parent()` for a relative path and
`path.parent()` otherwise; the `unwrap` panic on a missing parent is
modelled as exit code 101. -/
def ConfigFile.read (tomlParse : String → Option TomlValue)
    (fs : FileOutcome) (path : RPath) (curDir : RPath) :
    PResult (Option ConfigFile) :=
  match fs with
  | .absent => .ok none
  | .unreadable => .exit 1
  | .readable s =>
    match tomlParse s with
    | some (.table content) =>
      match (if path.is_relative then (path.join curDir).parent
             else path.parent) with
      | some dir => .ok (some ⟨content, path, dir⟩)
      | none => .exit 101
    | some _ => .exit 1
    | none => .exit 1

/-- The log-target selection of `Config::create_base_config`
(config.rs lines 457-484): the value of the `log` key selects the target,
`"file"` additionally consuming the `log-file` key. -/
def log_target_from_file (facility : Facility) (logOpt : Option String)
    (f2 : ConfigFile) : PResult (LogTarget × ConfigFile) :=
  match logOpt with
  | none => .ok (LogTarget.default facility, f2)
  | some "default" => .ok (LogTarget.default facility, f2)
  | some "syslog" => .ok (LogTarget.syslog facility, f2)
  | some "stderr" => .ok (LogTarget.stderr, f2)
  | some "file" =>
    match f2.take_path "log-file" with
    | .exit c => .exit c
    | .ok (some p, f3) => .ok (LogTarget.file p, f3)
    | .ok (none, _) => .exit 1
  | some _ => .exit 1

/-- The body of `Config::create_base_config` after the config file has been
read (config.rs lines 444-523).  `numCpus` models `num_cpus::get()`.  All
`take_*` calls happen in the source order of the Rust code; note that both
the `retry` and the `expire` field fall back to `DEFAULT_REFRESH`. -/
def create_base_config_from_file (numCpus : Nat) (file : ConfigFile) :
    PResult Config :=
  match file.take_string "syslog-facility" with
  | .exit c => .exit c
  | .ok (facilityOpt, f1) =>
    match facilityFromStr (facilityOpt.getD "daemon") with
    | none => .exit 1
    | some facility =>
      match f1.take_string "log" with
      | .exit c => .exit c
      | .ok (logOpt, f2) =>
        match log_target_from_file facility logOpt f2 with
        | .exit c => .exit c
        | .ok (log_target, f3) =>
          match f3.take_mandatory_path "repository-dir" with
          | .exit c => .exit c
          | .ok (cache_dir, f4) =>
            match f4.take_mandatory_path "tal-dir" with
            | .exit c => .exit c
            | .ok (tal_dir, f5) =>
              match f5.take_path_array "exceptions" with
              | .exit c => .exit c
              | .ok (exceptions, f6) =>
                match f6.take_bool "strict" with
                | .exit c => .exit c
                | .ok (strictOpt, f7) =>
                  match f7.take_usize "rsync-count" with
                  | .exit c => .exit c
                  | .ok (rsyncOpt, f8) =>
                    match f8.take_usize "validation-threads" with
                    | .exit c => .exit c
                    | .ok (threadsOpt, f9) =>
                      match f9.take_u64 "refresh" with
                      | .exit c => .exit c
                      | .ok (refreshOpt, f10) =>
                        match f10.take_u64 "retry" with
                        | .exit c => .exit c
                        | .ok (retryOpt, f11) =>
                          match f11.take_u64 "expire" with
                          | .exit c => .exit c
                          | .ok (expireOpt, f12) =>
                            match f12.take_usize "history-size" with
                            | .exit c => .exit c
                            | .ok (historyOpt, f13) =>
                              match ConfigFile.take_from_str_array
                                  parseSocketAddr f13 "listen-tcp" with
                              | .exit c => .exit c
                              | .ok (tcp_listen, f14) =>
                                match ConfigFile.take_from_str
                                    levelFilterFromStr f14 "log-level" with
                                | .exit c => .exit c
                                | .ok (levelOpt, f15) =>
                                  match f15.check_exhausted with
                                  | .exit c => .exit c
                                  | .ok _ =>
                                    .ok {
                                      cache_dir := cache_dir
                                      tal_dir := tal_dir
                                      exceptions := exceptions
                                      strict := strictOpt.getD false
                                      rsync_count :=
                                        rsyncOpt.getD DEFAULT_RSYNC_COUNT
                                      validation_threads :=
                                        threadsOpt.getD numCpus
                                      refresh := Duration.from_secs
                                        (refreshOpt.getD DEFAULT_REFRESH)
                                      retry := Duration.from_secs
                                        (retryOpt.getD DEFAULT_REFRESH)
                                      expire := Duration.from_secs
                                        (expireOpt.getD DEFAULT_REFRESH)
                                      history_size :=
                                        historyOpt.getD DEFAULT_HISTORY_SIZE
                                      tcp_listen := tcp_listen
                                      log_level := levelOpt.getD .warn
                                      log_target := log_target
                                    }

/-- `Config::default_with_paths` (config.rs lines 527-545). -/
def default_with_paths (numCpus : Nat) (cache_dir tal_dir : RPath) : Config :=
  {
    cache_dir := cache_dir
    tal_dir := tal_dir
    exceptions := []
    strict := DEFAULT_STRICT
    rsync_count := DEFAULT_RSYNC_COUNT
    validation_threads := numCpus
    refresh := Duration.from_secs DEFAULT_REFRESH
    retry := Duration.from_secs DEFAULT_RETRY
    expire := Duration.from_secs DEFAULT_EXPIRE
    history_size := DEFAULT_HISTORY_SIZE
    tcp_listen := [⟨"127.0.0.1", 3323⟩]
    log_level := .warn
    log_target := .stderr
  }

/-- `Config::default` (config.rs lines 588-606); exits when there is no
home directory. -/
def config_default (numCpus : Nat) (homeDir : Option RPath) :
    PResult Config :=
  match homeDir with
  | none => .exit 1
  | some dir =>
    let base_dir := dir.join (strToPath ".rpki-cache")
    .ok (default_with_paths numCpus
      (base_dir.join (strToPath "repository"))
      (base_dir.join (strToPath "tals")))

/-- `Config::create_base_config` (config.rs lines 421-524).  `fsAt` yields
the file-system outcome for a path; a given but unreadable-or-absent path
terminates the process, an absent default config falls back to
`Config::default`. -/
def create_base_config (tomlParse : String → Option TomlValue)
    (fsAt : RPath → FileOutcome) (homeDir : Option RPath) (numCpus : Nat)
    (curDir : RPath) (path : Option RPath) : PResult Config :=
  match path with
  | some p =>
    match ConfigFile.read tomlParse (fsAt p) p curDir with
    | .ok (some file) => create_base_config_from_file numCpus file
    | .ok none => .exit 1
    | .exit c => .exit c
  | none =>
    match homeDir with
    | some dir =>
      let p := dir.join (strToPath ".routinator.toml")
      match ConfigFile.read tomlParse (fsAt p) p curDir with
      | .ok (some file) => create_base_config_from_file numCpus file
      | .ok none => config_default numCpus homeDir
      | .exit c => .exit c
    | none => config_default numCpus none

/-- The clap `default_value` declarations of `Config::config_args`
(config.rs lines 76-191): `refresh` is "3600", `retry` is "600", `expire`
is "600", `history` is "10" and `syslog-facility` is "daemon"; no other
option declares a default. -/
def clap_default : String → Option String
  | "refresh" => some "3600"
  | "retry" => some "600"
  | "expire" => some "600"
  | "history" => some "10"
  | "syslog-facility" => some "daemon"
  | _ => none

/-- Model of `clap::ArgMatches` for the app built by `config_args`:
`values key` is the list of values the user passed for `key` (or `none`),
and `flagCount key` the number of occurrences of a value-less flag. -/
structure ArgMatches where
  values : String → Option (List String)
  flagCount : String → Nat

/-- `ArgMatches::value_of`: the first user value, falling back to the clap
default declared in `config_args`. -/
def ArgMatches.value_of (m : ArgMatches) (key : String) : Option String :=
  match m.values key with
  | some (v :: _) => some v
  | _ => clap_default key

/-- `ArgMatches::values_of` (only used for options without defaults). -/
def ArgMatches.values_of (m : ArgMatches) (key : String) :
    Option (List String) :=
  m.values key

/-- `ArgMatches::is_present` for the flags used here (which have no
defaults). -/
def ArgMatches.is_present (m : ArgMatches) (key : String) : Bool :=
  m.flagCount key ≠ 0 || (m.values key).isSome

/-- `ArgMatches::occurrences_of`. -/
def ArgMatches.occurrences_of (m : ArgMatches) (key : String) : Nat :=
  m.flagCount key

/-- `from_str_value_of` (config.rs lines 927-941), with the `FromStr`
implementation passed as `parse`: an unparseable value terminates the
process. -/
def from_str_value_of {α : Type} (parse : String → Option α)
    (m : ArgMatches) (key : String) : PResult (Option α) :=
  match m.value_of key with
  | none => .ok none
  | some v =>
    match parse v with
    | some x => .ok (some x)
    | none => .exit 1

/-- `Config::path_value_of` (config.rs lines 408-414). -/
def path_value_of (m : ArgMatches) (key : String) (dir : RPath) :
    Option RPath :=
  (m.value_of key).map (fun p => dir.join (strToPath p))

/-- The loop parsing `--listen` values into socket addresses
(config.rs lines 267-277). -/
def parseListen : List String → PResult (List SocketAddr)
  | [] => .ok []
  | v :: rest =>
    match parseSocketAddr v with
    | some a => (parseListen rest).map (a :: ·)
    | none => .exit 1

/-- The `cache_dir` block of `Config::from_arg_matches`
(config.rs lines 210-216). -/
def fam_cache_dir (curDir : RPath) (m : ArgMatches) (res : Config) :
    Config :=
  match m.value_of "repository-dir" with
  | some dir => { res with cache_dir := curDir.join (strToPath dir) }
  | none =>
    match m.value_of "base-dir" with
    | some dir =>
      { res with
        cache_dir := (curDir.join (strToPath dir)).join
          (strToPath "repository") }
    | none => res

/-- The `tal_dir` block of `Config::from_arg_matches`
(config.rs lines 218-224): both of its branches assign `cache_dir`,
never `tal_dir`. -/
def fam_tal_dir (curDir : RPath) (m : ArgMatches) (res : Config) : Config :=
  match m.value_of "tal-dir" with
  | some dir => { res with cache_dir := curDir.join (strToPath dir) }
  | none =>
    match m.value_of "base-dir" with
    | some dir =>
      { res with
        cache_dir := (curDir.join (strToPath dir)).join (strToPath "tals") }
    | none => res

/-- The `exceptions` block (config.rs lines 226-229). -/
def fam_exceptions (curDir : RPath) (m : ArgMatches) (res : Config) :
    Config :=
  match m.values_of "exceptions" with
  | some list =>
    { res with exceptions := list.map (fun p => curDir.join (strToPath p)) }
  | none => res

/-- The `strict` block (config.rs lines 231-234). -/
def fam_strict (m : ArgMatches) (res : Config) : Config :=
  if m.is_present "strict" then { res with strict := true } else res

/-- The `rsync_count` block (config.rs lines 236-239). -/
def fam_rsync_count (m : ArgMatches) (res : Config) : PResult Config :=
  match from_str_value_of parseU64 m "rsync-count" with
  | .exit c => .exit c
  | .ok (some n) => .ok { res with rsync_count := n }
  | .ok none => .ok res

/-- The `validation_threads` block (config.rs lines 241-244). -/
def fam_validation_threads (m : ArgMatches) (res : Config) :
    PResult Config :=
  match from_str_value_of parseU64 m "validation-threads" with
  | .exit c => .exit c
  | .ok (some n) => .ok { res with validation_threads := n }
  | .ok none => .ok res

/-- The `refresh` block (config.rs lines 246-249). -/
def fam_refresh (m : ArgMatches) (res : Config) : PResult Config :=
  match from_str_value_of parseU64 m "refresh" with
  | .exit c => .exit c
  | .ok (some n) => .ok { res with refresh := Duration.from_secs n }
  | .ok none => .ok res

/-- The `retry` block (config.rs lines 251-254). -/
def fam_retry (m : ArgMatches) (res : Config) : PResult Config :=
  match from_str_value_of parseU64 m "retry" with
  | .exit c => .exit c
  | .ok (some n) => .ok { res with retry := Duration.from_secs n }
  | .ok none => .ok res

/-- The `expire` block (config.rs lines 256-259). -/
def fam_expire (m : ArgMatches) (res : Config) : PResult Config :=
  match from_str_value_of parseU64 m "expire" with
  | .exit c => .exit c
  | .ok (some n) => .ok { res with expire := Duration.from_secs n }
  | .ok none => .ok res

/-- The `history_size` block (config.rs lines 261-264). -/
def fam_history (m : ArgMatches) (res : Config) : PResult Config :=
  match from_str_value_of parseU64 m "history" with
  | .exit c => .exit c
  | .ok (some n) => .ok { res with history_size := n }
  | .ok none => .ok res

/-- The `tcp_listen` block (config.rs lines 266-277). -/
def fam_tcp_listen (m : ArgMatches) (res : Config) : PResult Config :=
  match m.values_of "listen" with
  | some list =>
    match parseListen list with
    | .ok l => .ok { res with tcp_listen := l }
    | .exit c => .exit c
  | none => .ok res

/-- The `log_level` block (config.rs lines 279-289). -/
def fam_log_level (m : ArgMatches) (res : Config) : Config :=
  match m.occurrences_of "verbose", m.occurrences_of "quiet" with
  | 0, 0 => res
  | 1, 0 => { res with log_level := .info }
  | _ + 1, 0 => { res with log_level := .debug }
  | 0, 1 => { res with log_level := .error }
  | 0, _ + 1 => { res with log_level := .off }
  | _, _ => res

/-- The `log_target` block (config.rs lines 291-311); the `unwrap` on the
always-defaulted `syslog-facility` value is modelled as exit code 101. -/
def fam_log_target (curDir : RPath) (m : ArgMatches) (res : Config) :
    PResult Config :=
  if m.is_present "syslog" then
    match m.value_of "syslog-facility" with
    | none => .exit 101
    | some s =>
      match facilityFromStr s with
      | some fac => .ok { res with log_target := .syslog fac }
      | none => .exit 1
  else
    match m.value_of "logfile" with
    | some f =>
      if f = "-" then .ok { res with log_target := .stderr }
      else .ok { res with log_target := .file (curDir.join (strToPath f)) }
    | none => .ok res

/-- The body of `Config::from_arg_matches` after the base configuration has
been created (config.rs lines 210-313), updating `base` block by block in
source order. -/
def from_arg_matches_with_base (curDir : RPath) (m : ArgMatches)
    (base : Config) : PResult Config :=
  match fam_rsync_count m (fam_strict m (fam_exceptions curDir m
    (fam_tal_dir curDir m (fam_cache_dir curDir m base)))) with
  | .exit c => .exit c
  | .ok res5 =>
    match fam_validation_threads m res5 with
    | .exit c => .exit c
    | .ok res6 =>
      match fam_refresh m res6 with
      | .exit c => .exit c
      | .ok res7 =>
        match fam_retry m res7 with
        | .exit c => .exit c
        | .ok res8 =>
          match fam_expire m res8 with
          | .exit c => .exit c
          | .ok res9 =>
            match fam_history m res9 with
            | .exit c => .exit c
            | .ok res10 =>
              match fam_tcp_listen m res10 with
              | .exit c => .exit c
              | .ok res11 =>
                fam_log_target curDir m (fam_log_level m res11)

/-- `Config::from_arg_matches` (config.rs lines 193-314): base
configuration from the config file (or the defaults), then the
command-line overrides. -/
def from_arg_matches (tomlParse : String → Option TomlValue)
    (fsAt : RPath → FileOutcome) (homeDir : Option RPath) (numCpus : Nat)
    (curDir : RPath) (m : ArgMatches) : PResult Config :=
  match create_base_config tomlParse fsAt homeDir numCpus curDir
      (path_value_of m "config" curDir) with
  | .exit c => .exit c
  | .ok base => from_arg_matches_with_base curDir m base

/-- Modelled from the spec: a Validated ROA Payload (§3 data model), the
tuple (prefix = address and length, max-length, origin-AS, source-TA); the
sources do not contain the VRP code, only `config.rs`. -/
structure Vrp where
  addr : Nat
  plen : Nat
  maxLen : Nat
  asn : Nat
  ta : Nat
deriving DecidableEq

/-- Modelled from the spec: an immutable serial-numbered snapshot (§3);
serial arithmetic is modulo `2^32`. -/
structure Snapshot where
  serial : Nat
  vrps : Finset Vrp
deriving DecidableEq

/-- Modelled from the spec: a diff between two consecutive snapshots (§3). -/
structure Diff where
  fromSerial : Nat
  toSerial : Nat
  added : Finset Vrp
  removed : Finset Vrp
deriving DecidableEq

/-- Modelled from the spec: the VRP store (§4.2): the current snapshot plus
a bounded FIFO ring of diffs of capacity `historySize`.  The initial
snapshot counts as published. -/
structure Store where
  current : Snapshot
  history : List Diff
  historySize : Nat
deriving DecidableEq

/-- Serial increment modulo `2^32` (§3, RFC 8210 arithmetic). -/
def nextSerial (s : Nat) : Nat := (s + 1) % 2 ^ 32

/-- Modelled from the spec: the diff computed by `publish` (§4.2):
`added = new − old`, `removed = old − new`. -/
def publishDiff (st : Store) (newSet : Finset Vrp) : Diff :=
  ⟨st.current.serial, nextSerial st.current.serial,
    newSet \ st.current.vrps, st.current.vrps \ newSet⟩

/-- Keep only the last `n` elements of a list (FIFO eviction of the ring). -/
def lastN (n : Nat) (l : List Diff) : List Diff := l.drop (l.length - n)

/-- Modelled from the spec: `publish(new_vrp_set)` (§4.2): assign the next
serial, push the diff against the previous snapshot into the ring, evicting
the oldest entries once the ring exceeds `historySize`. -/
def publish (st : Store) (newSet : Finset Vrp) : Store :=
  ⟨⟨nextSerial st.current.serial, newSet⟩,
    lastN st.historySize (st.history ++ [publishDiff st newSet]),
    st.historySize⟩

/-- A store that has just been initialised with its first (published)
snapshot and an empty history. -/
def initStore (serial : Nat) (vrps : Finset Vrp) (historySize : Nat) :
    Store :=
  ⟨⟨serial, vrps⟩, [], historySize⟩

/-- A sequence of publications. -/
def publishList (st : Store) : List (Finset Vrp) → Store
  | [] => st
  | s :: rest => publishList (publish st s) rest

/-- Modelled from the spec: applying a diff to a VRP set (§3): remove every
element of `removed`, then add every element of `added`. -/
def applyDiff (s : Finset Vrp) (d : Diff) : Finset Vrp :=
  (s \ d.removed) ∪ d.added

/-- Modelled from the spec (§4.3): whether a list of diffs forms a
contiguous chain from serial `s` to serial `t`. -/
def isChain (s t : Nat) : List Diff → Bool
  | [] => s = t
  | d :: ds => d.fromSerial = s && isChain d.toSerial t ds

/-- Modelled from the spec (§4.3): extract from the history the contiguous
diff chain leading from serial `s` to serial `t`, if it exists. -/
def chainFrom (hist : List Diff) (s t : Nat) : Option (List Diff) :=
  if s = t then some []
  else
    match hist with
    | [] => none
    | d :: rest =>
      if d.fromSerial = s then (chainFrom rest d.toSerial t).map (d :: ·)
      else chainFrom rest s t

/-- Modelled from the spec (§4.3): the server's replies to a SerialQuery. -/
inductive SerialResponse where
  | endOfDataEmpty
  | dataResponse (ds : List Diff)
  | cacheReset
deriving DecidableEq

/-- Modelled from the spec (§4.3): handling of
`Established + SerialQuery(clientSerial)`: no change when the serial is
current, the concatenated diff chain when one exists in the history, and a
Cache Reset PDU otherwise. -/
def serveSerialQuery (st : Store) (clientSerial : Nat) : SerialResponse :=
  if clientSerial = st.current.serial then .endOfDataEmpty
  else
    match chainFrom st.history clientSerial st.current.serial with
    | some ds => .dataResponse ds
    | none => .cacheReset

/-- A key that does not occur in the content of a config file. -/
def absentKey (k : String) (cf : ConfigFile) : Prop :=
  assocLookup k cf.content = none

lemma assocLookup_assocRemove_none (k k' : String)
    (l : List (String × TomlValue)) (h : assocLookup k l = none) :
    assocLookup k (assocRemove k' l) = none := by
  induction l with
  | nil => simpa [assocRemove] using h
  | cons p t ih =>
    obtain ⟨a, b⟩ := p
    simp only [assocLookup] at h
    by_cases ha : a = k
    · simp [ha] at h
    · have ht : assocLookup k t = none := by simpa [ha] using h
      simp only [assocRemove]
      split
      · exact ht
      · simp only [assocLookup, if_neg ha]
        exact ih ht

lemma take_string_pres {cf : ConfigFile} {key : String}
    {r : Option String × ConfigFile} (h : cf.take_string key = .ok r)
    {k : String} (hk : absentKey k cf) : absentKey k r.2 := by
  cases hl : assocLookup key cf.content with
  | none =>
    simp only [ConfigFile.take_string, ConfigFile.removeKey, hl] at h
    cases h
    exact assocLookup_assocRemove_none k key _ hk
  | some v =>
    simp only [ConfigFile.take_string, ConfigFile.removeKey, hl] at h
    cases v with
    | string s =>
      cases h
      exact assocLookup_assocRemove_none k key _ hk
    | integer i => cases h
    | boolean b => cases h
    | array vs => cases h
    | table vs => cases h

lemma take_bool_pres {cf : ConfigFile} {key : String}
    {r : Option Bool × ConfigFile} (h : cf.take_bool key = .ok r)
    {k : String} (hk : absentKey k cf) : absentKey k r.2 := by
  cases hl : assocLookup key cf.content with
  | none =>
    simp only [ConfigFile.take_bool, ConfigFile.removeKey, hl] at h
    cases h
    exact assocLookup_assocRemove_none k key _ hk
  | some v =>
    simp only [ConfigFile.take_bool, ConfigFile.removeKey, hl] at h
    cases v with
    | boolean b =>
      cases h
      exact assocLookup_assocRemove_none k key _ hk
    | integer i => cases h
    | string s => cases h
    | array vs => cases h
    | table vs => cases h

lemma take_u64_pres {cf : ConfigFile} {key : String}
    {r : Option Nat × ConfigFile} (h : cf.take_u64 key = .ok r)
    {k : String} (hk : absentKey k cf) : absentKey k r.2 := by
  cases hl : assocLookup key cf.content with
  | none =>
    simp only [ConfigFile.take_u64, ConfigFile.removeKey, hl] at h
    cases h
    exact assocLookup_assocRemove_none k key _ hk
  | some v =>
    simp only [ConfigFile.take_u64, ConfigFile.removeKey, hl] at h
    cases v with
    | integer i =>
      by_cases hi : i < 0
      · simp [hi] at h
      · simp only [if_neg hi] at h
        cases h
        exact assocLookup_assocRemove_none k key _ hk
    | boolean b => cases h
    | string s => cases h
    | array vs => cases h
    | table vs => cases h

lemma take_usize_pres {cf : ConfigFile} {key : String}
    {r : Option Nat × ConfigFile} (h : cf.take_usize key = .ok r)
    {k : String} (hk : absentKey k cf) : absentKey k r.2 := by
  cases hl : assocLookup key cf.content with
  | none =>
    simp only [ConfigFile.take_usize, ConfigFile.removeKey, hl] at h
    cases h
    exact assocLookup_assocRemove_none k key _ hk
  | some v =>
    simp only [ConfigFile.take_usize, ConfigFile.removeKey, hl] at h
    cases v with
    | integer i =>
      by_cases hi : i < 0
      · simp [hi] at h
      · have hL : ¬ is_large_i64 i = true := by simp [is_large_i64]
        simp only [if_neg hi, if_neg hL] at h
        cases h
        exact assocLookup_assocRemove_none k key _ hk
    | boolean b => cases h
    | string s => cases h
    | array vs => cases h
    | table vs => cases h

lemma take_path_pres {cf : ConfigFile} {key : String}
    {r : Option RPath × ConfigFile} (h : cf.take_path key = .ok r)
    {k : String} (hk : absentKey k cf) : absentKey k r.2 := by
  unfold ConfigFile.take_path at h
  cases hs : cf.take_string key with
  | exit c => rw [hs] at h; cases h
  | ok v =>
    obtain ⟨sOpt, cf'⟩ := v
    rw [hs] at h
    cases sOpt with
    | none =>
      cases h
      exact take_string_pres hs hk
    | some s =>
      cases h
      exact take_string_pres hs hk

lemma take_mandatory_path_pres {cf : ConfigFile} {key : String}
    {r : RPath × ConfigFile} (h : cf.take_mandatory_path key = .ok r)
    {k : String} (hk : absentKey k cf) : absentKey k r.2 := by
  unfold ConfigFile.take_mandatory_path at h
  cases hp : cf.take_path key with
  | exit c => rw [hp] at h; cases h
  | ok v =>
    obtain ⟨pOpt, cf'⟩ := v
    rw [hp] at h
    cases pOpt with
    | none => cases h
    | some p =>
      cases h
      exact take_path_pres hp hk

lemma take_path_array_pres {cf : ConfigFile} {key : String}
    {r : List RPath × ConfigFile} (h : cf.take_path_array key = .ok r)
    {k : String} (hk : absentKey k cf) : absentKey k r.2 := by
  cases hl : assocLookup key cf.content with
  | none =>
    simp only [ConfigFile.take_path_array, ConfigFile.removeKey, hl] at h
    cases h
    exact assocLookup_assocRemove_none k key _ hk
  | some v =>
    simp only [ConfigFile.take_path_array, ConfigFile.removeKey, hl] at h
    cases v with
    | array vs =>
      cases hm : mapPathValues cf.dir vs with
      | ok l =>
        simp only [hm] at h
        cases h
        exact assocLookup_assocRemove_none k key _ hk
      | exit c =>
        simp only [hm] at h
        cases h
    | integer i => cases h
    | boolean b => cases h
    | string s => cases h
    | table vs => cases h

lemma take_from_str_array_pres {α : Type} {parse : String → Option α}
    {cf : ConfigFile} {key : String} {r : List α × ConfigFile}
    (h : ConfigFile.take_from_str_array parse cf key = .ok r)
    {k : String} (hk : absentKey k cf) : absentKey k r.2 := by
  cases hl : assocLookup key cf.content with
  | none =>
    simp only [ConfigFile.take_from_str_array, ConfigFile.removeKey, hl] at h
    cases h
    exact assocLookup_assocRemove_none k key _ hk
  | some v =>
    simp only [ConfigFile.take_from_str_array, ConfigFile.removeKey, hl] at h
    cases v with
    | array vs =>
      cases hm : mapFromStrValues parse vs with
      | ok l =>
        simp only [hm] at h
        cases h
        exact assocLookup_assocRemove_none k key _ hk
      | exit c =>
        simp only [hm] at h
        cases h
    | integer i => cases h
    | boolean b => cases h
    | string s => cases h
    | table vs => cases h

lemma take_from_str_pres {α : Type} {parse : String → Option α}
    {cf : ConfigFile} {key : String} {r : Option α × ConfigFile}
    (h : ConfigFile.take_from_str parse cf key = .ok r)
    {k : String} (hk : absentKey k cf) : absentKey k r.2 := by
  unfold ConfigFile.take_from_str at h
  cases hs : cf.take_string key with
  | exit c => rw [hs] at h; cases h
  | ok v =>
    obtain ⟨sOpt, cf'⟩ := v
    rw [hs] at h
    cases sOpt with
    | none =>
      cases h
      exact take_string_pres hs hk
    | some s =>
      cases hp : parse s with
      | some x =>
        simp only [hp] at h
        cases h
        exact take_string_pres hs hk
      | none =>
        simp only [hp] at h
        cases h

lemma log_target_pres {facility : Facility} {logOpt : Option String}
    {f2 : ConfigFile} {r : LogTarget × ConfigFile}
    (h : log_target_from_file facility logOpt f2 = .ok r)
    {k : String} (hk : absentKey k f2) : absentKey k r.2 := by
  unfold log_target_from_file at h
  split at h
  · cases h; exact hk
  · cases h; exact hk
  · cases h; exact hk
  · cases h; exact hk
  · rename_i heq
    cases hp : f2.take_path "log-file" with
    | exit c => rw [hp] at h; cases h
    | ok v =>
      obtain ⟨pOpt, f3⟩ := v
      rw [hp] at h
      cases pOpt with
      | none => cases h
      | some p =>
        cases h
        exact take_path_pres hp hk
  · cases h

/-- `take_u64` on an absent key succeeds with no value. -/
lemma take_u64_absent {cf : ConfigFile} {key : String}
    (hk : absentKey key cf) :
    cf.take_u64 key =
      .ok (none, { cf with content := assocRemove key cf.content }) := by
  simp only [ConfigFile.take_u64, ConfigFile.removeKey,
    show assocLookup key cf.content = none from hk]

lemma create_base_retry_expire (numCpus : Nat) (file : ConfigFile)
    (cfg : Config)
    (hok : create_base_config_from_file numCpus file = .ok cfg) :
    ∃ (g g' g'' : ConfigFile) (retryOpt expireOpt : Option Nat),
      (∀ k, absentKey k file → absentKey k g) ∧
      g.take_u64 "retry" = .ok (retryOpt, g') ∧
      g'.take_u64 "expire" = .ok (expireOpt, g'') ∧
      cfg.retry = Duration.from_secs (retryOpt.getD DEFAULT_REFRESH) ∧
      cfg.expire = Duration.from_secs (expireOpt.getD DEFAULT_REFRESH) := by
  unfold create_base_config_from_file at hok
  cases h1 : file.take_string "syslog-facility" with
  | exit c => simp only [h1] at hok; cases hok
  | ok v1 =>
  obtain ⟨facilityOpt, f1⟩ := v1
  simp only [h1] at hok
  cases h2 : facilityFromStr (facilityOpt.getD "daemon") with
  | none => simp only [h2] at hok; cases hok
  | some facility =>
  simp only [h2] at hok
  cases h3 : f1.take_string "log" with
  | exit c => simp only [h3] at hok; cases hok
  | ok v2 =>
  obtain ⟨logOpt, f2⟩ := v2
  simp only [h3] at hok
  cases h4 : log_target_from_file facility logOpt f2 with
  | exit c => simp only [h4] at hok; cases hok
  | ok v3 =>
  obtain ⟨log_target, f3⟩ := v3
  simp only [h4] at hok
  cases h5 : f3.take_mandatory_path "repository-dir" with
  | exit c => simp only [h5] at hok; cases hok
  | ok v4 =>
  obtain ⟨cache_dir, f4⟩ := v4
  simp only [h5] at hok
  cases h6 : f4.take_mandatory_path "tal-dir" with
  | exit c => simp only [h6] at hok; cases hok
  | ok v5 =>
  obtain ⟨tal_dir, f5⟩ := v5
  simp only [h6] at hok
  cases h7 : f5.take_path_array "exceptions" with
  | exit c => simp only [h7] at hok; cases hok
  | ok v6 =>
  obtain ⟨exceptions, f6⟩ := v6
  simp only [h7] at hok
  cases h8 : f6.take_bool "strict" with
  | exit c => simp only [h8] at hok; cases hok
  | ok v7 =>
  obtain ⟨strictOpt, f7⟩ := v7
  simp only [h8] at hok
  cases h9 : f7.take_usize "rsync-count" with
  | exit c => simp only [h9] at hok; cases hok
  | ok v8 =>
  obtain ⟨rsyncOpt, f8⟩ := v8
  simp only [h9] at hok
  cases h10 : f8.take_usize "validation-threads" with
  | exit c => simp only [h10] at hok; cases hok
  | ok v9 =>
  obtain ⟨threadsOpt, f9⟩ := v9
  simp only [h10] at hok
  cases h11 : f9.take_u64 "refresh" with
  | exit c => simp only [h11] at hok; cases hok
  | ok v10 =>
  obtain ⟨refreshOpt, f10⟩ := v10
  simp only [h11] at hok
  cases h12 : f10.take_u64 "retry" with
  | exit c => simp only [h12] at hok; cases hok
  | ok v11 =>
  obtain ⟨retryOpt, f11⟩ := v11
  simp only [h12] at hok
  cases h13 : f11.take_u64 "expire" with
  | exit c => simp only [h13] at hok; cases hok
  | ok v12 =>
  obtain ⟨expireOpt, f12⟩ := v12
  simp only [h13] at hok
  cases h14 : f12.take_usize "history-size" with
  | exit c => simp only [h14] at hok; cases hok
  | ok v13 =>
  obtain ⟨historyOpt, f13⟩ := v13
  simp only [h14] at hok
  cases h15 : ConfigFile.take_from_str_array parseSocketAddr f13 "listen-tcp" with
  | exit c => simp only [h15] at hok; cases hok
  | ok v14 =>
  obtain ⟨tcp_listen, f14⟩ := v14
  simp only [h15] at hok
  cases h16 : ConfigFile.take_from_str levelFilterFromStr f14 "log-level" with
  | exit c => simp only [h16] at hok; cases hok
  | ok v15 =>
  obtain ⟨levelOpt, f15⟩ := v15
  simp only [h16] at hok
  cases h17 : f15.check_exhausted with
  | exit c => simp only [h17] at hok; cases hok
  | ok u =>
  simp only [h17] at hok
  cases hok
  have a1 : ∀ k, absentKey k file → absentKey k f1 :=
    fun _ hk => take_string_pres h1 hk
  have a2 : ∀ k, absentKey k file → absentKey k f2 :=
    fun k hk => take_string_pres h3 (a1 k hk)
  have a3 : ∀ k, absentKey k file → absentKey k f3 :=
    fun k hk => log_target_pres h4 (a2 k hk)
  have a4 : ∀ k, absentKey k file → absentKey k f4 :=
    fun k hk => take_mandatory_path_pres h5 (a3 k hk)
  have a5 : ∀ k, absentKey k file → absentKey k f5 :=
    fun k hk => take_mandatory_path_pres h6 (a4 k hk)
  have a6 : ∀ k, absentKey k file → absentKey k f6 :=
    fun k hk => take_path_array_pres h7 (a5 k hk)
  have a7 : ∀ k, absentKey k file → absentKey k f7 :=
    fun k hk => take_bool_pres h8 (a6 k hk)
  have a8 : ∀ k, absentKey k file → absentKey k f8 :=
    fun k hk => take_usize_pres h9 (a7 k hk)
  have a9 : ∀ k, absentKey k file → absentKey k f9 :=
    fun k hk => take_usize_pres h10 (a8 k hk)
  have a10 : ∀ k, absentKey k file → absentKey k f10 :=
    fun k hk => take_u64_pres h11 (a9 k hk)
  exact ⟨f10, f11, f12, retryOpt, expireOpt, a10, h12, h13, rfl, rfl⟩

/-- C1: for every configuration file without a `retry` key,
`Config::create_base_config` falls back to `DEFAULT_REFRESH` (3600 seconds)
for the retry duration, and for every configuration file without an
`expire` key it falls back to `DEFAULT_REFRESH` for the expire duration:
both RTR intervals reuse the refresh default instead of `DEFAULT_RETRY`
or `DEFAULT_EXPIRE`. -/
theorem create_base_config_retry_expire_reuse_refresh_default
    (numCpus : Nat) (file : ConfigFile) (cfg : Config)
    (hok : create_base_config_from_file numCpus file = .ok cfg) :
    (assocLookup "retry" file.content = none →
      cfg.retry = Duration.from_secs DEFAULT_REFRESH) ∧
    (assocLookup "expire" file.content = none →
      cfg.expire = Duration.from_secs DEFAULT_REFRESH) ∧
    DEFAULT_REFRESH = 3600 ∧ DEFAULT_RETRY = 600 ∧ DEFAULT_EXPIRE = 7200 := by
  obtain ⟨g, g', g'', retryOpt, expireOpt, habs, hr, he, hcr, hce⟩ :=
    create_base_retry_expire numCpus file cfg hok
  refine ⟨?_, ?_, rfl, rfl, rfl⟩
  · intro hra
    have hag : absentKey "retry" g := habs _ hra
    have := take_u64_absent hag
    rw [hr] at this
    cases this
    simpa using hcr
  · intro hea
    have hag : absentKey "expire" g := habs _ hea
    have hag' : absentKey "expire" g' := take_u64_pres hr hag
    have := take_u64_absent hag'
    rw [he] at this
    cases this
    simpa using hce

/-- A concrete config file without `retry` and `expire` keys, used to
witness the retry/expire fallback. -/
def c1File : ConfigFile :=
  ⟨[("repository-dir", .string "/repo"), ("tal-dir", .string "/tals")],
    ⟨true, ["etc", "routinator.toml"]⟩, ⟨true, ["etc"]⟩⟩

/-- The configuration produced from `c1File`. -/
def c1Cfg : Config :=
  ⟨⟨true, ["repo"]⟩, ⟨true, ["tals"]⟩, [], false, 4, 8,
    ⟨3600⟩, ⟨3600⟩, ⟨3600⟩, 10, [], .warn, .default .daemon⟩

/-- Witness for C1 at a concrete config file lacking both keys. -/
theorem create_base_config_retry_expire_reuse_refresh_default_witness :
    (create_base_config_from_file 8 c1File = .ok c1Cfg) ∧
    (assocLookup "retry" c1File.content = none) ∧
    (assocLookup "expire" c1File.content = none) ∧
    c1Cfg.retry = Duration.from_secs DEFAULT_REFRESH ∧
    c1Cfg.expire = Duration.from_secs DEFAULT_REFRESH :=
  ⟨rfl, rfl, rfl,
    (create_base_config_retry_expire_reuse_refresh_default 8 c1File c1Cfg
      rfl).1 rfl,
    (create_base_config_retry_expire_reuse_refresh_default 8 c1File c1Cfg
      rfl).2.1 rfl⟩

lemma fam_cache_dir_fields (curDir : RPath) (m : ArgMatches) (r : Config) :
    (fam_cache_dir curDir m r).tal_dir = r.tal_dir ∧
    (fam_cache_dir curDir m r).refresh = r.refresh ∧
    (fam_cache_dir curDir m r).retry = r.retry ∧
    (fam_cache_dir curDir m r).expire = r.expire ∧
    (fam_cache_dir curDir m r).history_size = r.history_size := by
  unfold fam_cache_dir
  repeat' split
  all_goals exact ⟨rfl, rfl, rfl, rfl, rfl⟩

lemma fam_tal_dir_fields (curDir : RPath) (m : ArgMatches) (r : Config) :
    (fam_tal_dir curDir m r).tal_dir = r.tal_dir ∧
    (fam_tal_dir curDir m r).refresh = r.refresh ∧
    (fam_tal_dir curDir m r).retry = r.retry ∧
    (fam_tal_dir curDir m r).expire = r.expire ∧
    (fam_tal_dir curDir m r).history_size = r.history_size := by
  unfold fam_tal_dir
  repeat' split
  all_goals exact ⟨rfl, rfl, rfl, rfl, rfl⟩

lemma fam_tal_dir_set (curDir : RPath) (m : ArgMatches) (r : Config)
    (d : String) (hd : m.value_of "tal-dir" = some d) :
    fam_tal_dir curDir m r =
      { r with cache_dir := curDir.join (strToPath d) } := by
  unfold fam_tal_dir
  rw [hd]

lemma fam_exceptions_fields (curDir : RPath) (m : ArgMatches) (r : Config) :
    (fam_exceptions curDir m r).cache_dir = r.cache_dir ∧
    (fam_exceptions curDir m r).tal_dir = r.tal_dir ∧
    (fam_exceptions curDir m r).refresh = r.refresh ∧
    (fam_exceptions curDir m r).retry = r.retry ∧
    (fam_exceptions curDir m r).expire = r.expire ∧
    (fam_exceptions curDir m r).history_size = r.history_size := by
  unfold fam_exceptions
  repeat' split
  all_goals exact ⟨rfl, rfl, rfl, rfl, rfl, rfl⟩

lemma fam_strict_fields (m : ArgMatches) (r : Config) :
    (fam_strict m r).cache_dir = r.cache_dir ∧
    (fam_strict m r).tal_dir = r.tal_dir ∧
    (fam_strict m r).refresh = r.refresh ∧
    (fam_strict m r).retry = r.retry ∧
    (fam_strict m r).expire = r.expire ∧
    (fam_strict m r).history_size = r.history_size := by
  unfold fam_strict
  repeat' split
  all_goals exact ⟨rfl, rfl, rfl, rfl, rfl, rfl⟩

lemma fam_rsync_count_fields {m : ArgMatches} {r r' : Config}
    (h : fam_rsync_count m r = .ok r') :
    r'.cache_dir = r.cache_dir ∧ r'.tal_dir = r.tal_dir ∧
    r'.refresh = r.refresh ∧ r'.retry = r.retry ∧
    r'.expire = r.expire ∧ r'.history_size = r.history_size := by
  unfold fam_rsync_count at h
  split at h
  · cases h
  · cases h; exact ⟨rfl, rfl, rfl, rfl, rfl, rfl⟩
  · cases h; exact ⟨rfl, rfl, rfl, rfl, rfl, rfl⟩

lemma fam_validation_threads_fields {m : ArgMatches} {r r' : Config}
    (h : fam_validation_threads m r = .ok r') :
    r'.cache_dir = r.cache_dir ∧ r'.tal_dir = r.tal_dir ∧
    r'.refresh = r.refresh ∧ r'.retry = r.retry ∧
    r'.expire = r.expire ∧ r'.history_size = r.history_size := by
  unfold fam_validation_threads at h
  split at h
  · cases h
  · cases h; exact ⟨rfl, rfl, rfl, rfl, rfl, rfl⟩
  · cases h; exact ⟨rfl, rfl, rfl, rfl, rfl, rfl⟩

lemma fam_refresh_fields {m : ArgMatches} {r r' : Config}
    (h : fam_refresh m r = .ok r') :
    r'.cache_dir = r.cache_dir ∧ r'.tal_dir = r.tal_dir ∧
    r'.retry = r.retry ∧ r'.expire = r.expire ∧
    r'.history_size = r.history_size := by
  unfold fam_refresh at h
  split at h
  · cases h
  · cases h; exact ⟨rfl, rfl, rfl, rfl, rfl⟩
  · cases h; exact ⟨rfl, rfl, rfl, rfl, rfl⟩

lemma fam_retry_fields {m : ArgMatches} {r r' : Config}
    (h : fam_retry m r = .ok r') :
    r'.cache_dir = r.cache_dir ∧ r'.tal_dir = r.tal_dir ∧
    r'.refresh = r.refresh ∧ r'.expire = r.expire ∧
    r'.history_size = r.history_size := by
  unfold fam_retry at h
  split at h
  · cases h
  · cases h; exact ⟨rfl, rfl, rfl, rfl, rfl⟩
  · cases h; exact ⟨rfl, rfl, rfl, rfl, rfl⟩

lemma fam_expire_fields {m : ArgMatches} {r r' : Config}
    (h : fam_expire m r = .ok r') :
    r'.cache_dir = r.cache_dir ∧ r'.tal_dir = r.tal_dir ∧
    r'.refresh = r.refresh ∧ r'.retry = r.retry ∧
    r'.history_size = r.history_size := by
  unfold fam_expire at h
  split at h
  · cases h
  · cases h; exact ⟨rfl, rfl, rfl, rfl, rfl⟩
  · cases h; exact ⟨rfl, rfl, rfl, rfl, rfl⟩

lemma fam_history_fields {m : ArgMatches} {r r' : Config}
    (h : fam_history m r = .ok r') :
    r'.cache_dir = r.cache_dir ∧ r'.tal_dir = r.tal_dir ∧
    r'.refresh = r.refresh ∧ r'.retry = r.retry ∧
    r'.expire = r.expire := by
  unfold fam_history at h
  split at h
  · cases h
  · cases h; exact ⟨rfl, rfl, rfl, rfl, rfl⟩
  · cases h; exact ⟨rfl, rfl, rfl, rfl, rfl⟩

lemma fam_tcp_listen_fields {m : ArgMatches} {r r' : Config}
    (h : fam_tcp_listen m r = .ok r') :
    r'.cache_dir = r.cache_dir ∧ r'.tal_dir = r.tal_dir ∧
    r'.refresh = r.refresh ∧ r'.retry = r.retry ∧
    r'.expire = r.expire ∧ r'.history_size = r.history_size := by
  unfold fam_tcp_listen at h
  repeat' split at h
  all_goals (cases h <;> exact ⟨rfl, rfl, rfl, rfl, rfl, rfl⟩)

lemma fam_log_level_fields (m : ArgMatches) (r : Config) :
    (fam_log_level m r).cache_dir = r.cache_dir ∧
    (fam_log_level m r).tal_dir = r.tal_dir ∧
    (fam_log_level m r).refresh = r.refresh ∧
    (fam_log_level m r).retry = r.retry ∧
    (fam_log_level m r).expire = r.expire ∧
    (fam_log_level m r).history_size = r.history_size := by
  unfold fam_log_level
  repeat' split
  all_goals exact ⟨rfl, rfl, rfl, rfl, rfl, rfl⟩

lemma fam_log_target_fields {curDir : RPath} {m : ArgMatches} {r r' : Config}
    (h : fam_log_target curDir m r = .ok r') :
    r'.cache_dir = r.cache_dir ∧ r'.tal_dir = r.tal_dir ∧
    r'.refresh = r.refresh ∧ r'.retry = r.retry ∧
    r'.expire = r.expire ∧ r'.history_size = r.history_size := by
  unfold fam_log_target at h
  repeat' split at h
  all_goals (cases h <;> exact ⟨rfl, rfl, rfl, rfl, rfl, rfl⟩)

lemma fam_walk (curDir : RPath) (m : ArgMatches) (base cfg : Config)
    (hok : from_arg_matches_with_base curDir m base = .ok cfg) :
    ∃ res5 res6 res7 res8 res9 res10 res11 : Config,
      fam_rsync_count m (fam_strict m (fam_exceptions curDir m
        (fam_tal_dir curDir m (fam_cache_dir curDir m base)))) = .ok res5 ∧
      fam_validation_threads m res5 = .ok res6 ∧
      fam_refresh m res6 = .ok res7 ∧
      fam_retry m res7 = .ok res8 ∧
      fam_expire m res8 = .ok res9 ∧
      fam_history m res9 = .ok res10 ∧
      fam_tcp_listen m res10 = .ok res11 ∧
      fam_log_target curDir m (fam_log_level m res11) = .ok cfg := by
  unfold from_arg_matches_with_base at hok
  cases h1 : fam_rsync_count m (fam_strict m (fam_exceptions curDir m
      (fam_tal_dir curDir m (fam_cache_dir curDir m base)))) with
  | exit c => simp only [h1] at hok; cases hok
  | ok res5 =>
  simp only [h1] at hok
  cases h2 : fam_validation_threads m res5 with
  | exit c => simp only [h2] at hok; cases hok
  | ok res6 =>
  simp only [h2] at hok
  cases h3 : fam_refresh m res6 with
  | exit c => simp only [h3] at hok; cases hok
  | ok res7 =>
  simp only [h3] at hok
  cases h4 : fam_retry m res7 with
  | exit c => simp only [h4] at hok; cases hok
  | ok res8 =>
  simp only [h4] at hok
  cases h5 : fam_expire m res8 with
  | exit c => simp only [h5] at hok; cases hok
  | ok res9 =>
  simp only [h5] at hok
  cases h6 : fam_history m res9 with
  | exit c => simp only [h6] at hok; cases hok
  | ok res10 =>
  simp only [h6] at hok
  cases h7 : fam_tcp_listen m res10 with
  | exit c => simp only [h7] at hok; cases hok
  | ok res11 =>
  simp only [h7] at hok
  exact ⟨res5, res6, res7, res8, res9, res10, res11,
    rfl, h2, h3, h4, h5, h6, h7, hok⟩

/-- C2: a given `--tal-dir` option never changes `tal_dir`; it overwrites
`cache_dir` with the current directory joined with its value, and no
command-line option ever modifies the `tal_dir` field of the base
configuration. -/
theorem from_arg_matches_tal_dir_overwrites_cache_dir
    (curDir : RPath) (m : ArgMatches) (base cfg : Config) (d : String)
    (hok : from_arg_matches_with_base curDir m base = .ok cfg) :
    cfg.tal_dir = base.tal_dir ∧
    (m.value_of "tal-dir" = some d →
      cfg.cache_dir = curDir.join (strToPath d)) := by
  obtain ⟨res5, res6, res7, res8, res9, res10, res11,
    h1, h2, h3, h4, h5, h6, h7, h8⟩ := fam_walk curDir m base cfg hok
  constructor
  · calc cfg.tal_dir
        = (fam_log_level m res11).tal_dir := (fam_log_target_fields h8).2.1
      _ = res11.tal_dir := (fam_log_level_fields m res11).2.1
      _ = res10.tal_dir := (fam_tcp_listen_fields h7).2.1
      _ = res9.tal_dir := (fam_history_fields h6).2.1
      _ = res8.tal_dir := (fam_expire_fields h5).2.1
      _ = res7.tal_dir := (fam_retry_fields h4).2.1
      _ = res6.tal_dir := (fam_refresh_fields h3).2.1
      _ = res5.tal_dir := (fam_validation_threads_fields h2).2.1
      _ = (fam_strict m (fam_exceptions curDir m (fam_tal_dir curDir m
            (fam_cache_dir curDir m base)))).tal_dir :=
          (fam_rsync_count_fields h1).2.1
      _ = (fam_exceptions curDir m (fam_tal_dir curDir m
            (fam_cache_dir curDir m base))).tal_dir :=
          (fam_strict_fields m _).2.1
      _ = (fam_tal_dir curDir m (fam_cache_dir curDir m base)).tal_dir :=
          (fam_exceptions_fields curDir m _).2.1
      _ = (fam_cache_dir curDir m base).tal_dir :=
          (fam_tal_dir_fields curDir m _).1
      _ = base.tal_dir := (fam_cache_dir_fields curDir m base).1
  · intro hd
    calc cfg.cache_dir
        = (fam_log_level m res11).cache_dir := (fam_log_target_fields h8).1
      _ = res11.cache_dir := (fam_log_level_fields m res11).1
      _ = res10.cache_dir := (fam_tcp_listen_fields h7).1
      _ = res9.cache_dir := (fam_history_fields h6).1
      _ = res8.cache_dir := (fam_expire_fields h5).1
      _ = res7.cache_dir := (fam_retry_fields h4).1
      _ = res6.cache_dir := (fam_refresh_fields h3).1
      _ = res5.cache_dir := (fam_validation_threads_fields h2).1
      _ = (fam_strict m (fam_exceptions curDir m (fam_tal_dir curDir m
            (fam_cache_dir curDir m base)))).cache_dir :=
          (fam_rsync_count_fields h1).1
      _ = (fam_exceptions curDir m (fam_tal_dir curDir m
            (fam_cache_dir curDir m base))).cache_dir :=
          (fam_strict_fields m _).1
      _ = (fam_tal_dir curDir m (fam_cache_dir curDir m base)).cache_dir :=
          (fam_exceptions_fields curDir m _).1
      _ = curDir.join (strToPath d) := by
          rw [fam_tal_dir_set curDir m _ d hd]

lemma fam_refresh_default {m : ArgMatches} (r : Config)
    (h : m.values "refresh" = none) :
    fam_refresh m r = .ok { r with refresh := Duration.from_secs 3600 } := by
  unfold fam_refresh from_str_value_of ArgMatches.value_of
  rw [h]
  rfl

lemma fam_retry_default {m : ArgMatches} (r : Config)
    (h : m.values "retry" = none) :
    fam_retry m r = .ok { r with retry := Duration.from_secs 600 } := by
  unfold fam_retry from_str_value_of ArgMatches.value_of
  rw [h]
  rfl

lemma fam_expire_default {m : ArgMatches} (r : Config)
    (h : m.values "expire" = none) :
    fam_expire m r = .ok { r with expire := Duration.from_secs 600 } := by
  unfold fam_expire from_str_value_of ArgMatches.value_of
  rw [h]
  rfl

lemma fam_history_default {m : ArgMatches} (r : Config)
    (h : m.values "history" = none) :
    fam_history m r = .ok { r with history_size := 10 } := by
  unfold fam_history from_str_value_of ArgMatches.value_of
  rw [h]
  rfl

/-- C3: because `config_args` declares clap defaults "3600"/"600"/"600"/"10"
for refresh/retry/expire/history, `Config::from_arg_matches` always
overwrites these four fields; without the corresponding flags the result
has refresh 3600s, retry 600s, expire 600s (not 7200) and history size 10,
whatever the base configuration (and hence the config file) said. -/
theorem from_arg_matches_clap_defaults_override
    (curDir : RPath) (m : ArgMatches) (base cfg : Config)
    (hrefresh : m.values "refresh" = none) (hretry : m.values "retry" = none)
    (hexpire : m.values "expire" = none) (hhistory : m.values "history" = none)
    (hok : from_arg_matches_with_base curDir m base = .ok cfg) :
    cfg.refresh = Duration.from_secs 3600 ∧
    cfg.retry = Duration.from_secs 600 ∧
    cfg.expire = Duration.from_secs 600 ∧
    cfg.history_size = 10 := by
  obtain ⟨res5, res6, res7, res8, res9, res10, res11,
    h1, h2, h3, h4, h5, h6, h7, h8⟩ := fam_walk curDir m base cfg hok
  have hres7 : res7 = { res6 with refresh := Duration.from_secs 3600 } :=
    ((PResult.ok.injEq _ _).mp
      ((fam_refresh_default res6 hrefresh).symm.trans h3)).symm
  have hres8 : res8 = { res7 with retry := Duration.from_secs 600 } :=
    ((PResult.ok.injEq _ _).mp
      ((fam_retry_default res7 hretry).symm.trans h4)).symm
  have hres9 : res9 = { res8 with expire := Duration.from_secs 600 } :=
    ((PResult.ok.injEq _ _).mp
      ((fam_expire_default res8 hexpire).symm.trans h5)).symm
  have hres10 : res10 = { res9 with history_size := 10 } :=
    ((PResult.ok.injEq _ _).mp
      ((fam_history_default res9 hhistory).symm.trans h6)).symm
  refine ⟨?_, ?_, ?_, ?_⟩
  · rw [(fam_log_target_fields h8).2.2.1, (fam_log_level_fields m res11).2.2.1,
      (fam_tcp_listen_fields h7).2.2.1, hres10, hres9, hres8, hres7]
  · rw [(fam_log_target_fields h8).2.2.2.1,
      (fam_log_level_fields m res11).2.2.2.1,
      (fam_tcp_listen_fields h7).2.2.2.1, hres10, hres9, hres8]
  · rw [(fam_log_target_fields h8).2.2.2.2.1,
      (fam_log_level_fields m res11).2.2.2.2.1,
      (fam_tcp_listen_fields h7).2.2.2.2.1, hres10, hres9]
  · rw [(fam_log_target_fields h8).2.2.2.2.2,
      (fam_log_level_fields m res11).2.2.2.2.2,
      (fam_tcp_listen_fields h7).2.2.2.2.2, hres10]

/-- Concrete argument matches passing only `--tal-dir mytals`. -/
def c2M : ArgMatches :=
  ⟨fun k => if k = "tal-dir" then some ["mytals"] else none, fun _ => 0⟩

/-- A concrete base configuration for the tal-dir witness. -/
def c2Base : Config :=
  ⟨⟨true, ["c"]⟩, ⟨true, ["t"]⟩, [], false, 4, 2,
    ⟨1⟩, ⟨2⟩, ⟨3⟩, 5, [], .warn, .stderr⟩

/-- The configuration produced from `c2Base` under `c2M`. -/
def c2Cfg : Config :=
  ⟨⟨true, ["home", "mytals"]⟩, ⟨true, ["t"]⟩, [], false, 4, 2,
    ⟨3600⟩, ⟨600⟩, ⟨600⟩, 10, [], .warn, .stderr⟩

/-- Witness for C2 at a concrete invocation with `--tal-dir`. -/
theorem from_arg_matches_tal_dir_overwrites_cache_dir_witness :
    (from_arg_matches_with_base ⟨true, ["home"]⟩ c2M c2Base = .ok c2Cfg) ∧
    c2M.value_of "tal-dir" = some "mytals" ∧
    c2Cfg.tal_dir = c2Base.tal_dir ∧
    c2Cfg.cache_dir = RPath.join ⟨true, ["home"]⟩ (strToPath "mytals") :=
  ⟨rfl, rfl,
    (from_arg_matches_tal_dir_overwrites_cache_dir ⟨true, ["home"]⟩ c2M
      c2Base c2Cfg "mytals" rfl).1,
    (from_arg_matches_tal_dir_overwrites_cache_dir ⟨true, ["home"]⟩ c2M
      c2Base c2Cfg "mytals" rfl).2 rfl⟩

/-- Concrete argument matches passing no options at all. -/
def c3M : ArgMatches := ⟨fun _ => none, fun _ => 0⟩

/-- A concrete base configuration with config-file interval values. -/
def c3Base : Config :=
  ⟨⟨true, ["c3"]⟩, ⟨true, ["t3"]⟩, [], false, 4, 2,
    ⟨1800⟩, ⟨300⟩, ⟨7200⟩, 5, [], .warn, .stderr⟩

/-- The configuration produced from `c3Base` under `c3M`: the clap defaults
replace the base values. -/
def c3Cfg : Config :=
  ⟨⟨true, ["c3"]⟩, ⟨true, ["t3"]⟩, [], false, 4, 2,
    ⟨3600⟩, ⟨600⟩, ⟨600⟩, 10, [], .warn, .stderr⟩

/-- Witness for C3 at a concrete invocation without interval flags. -/
theorem from_arg_matches_clap_defaults_override_witness :
    (from_arg_matches_with_base ⟨true, ["h3"]⟩ c3M c3Base = .ok c3Cfg) ∧
    c3Cfg.refresh = Duration.from_secs 3600 ∧
    c3Cfg.retry = Duration.from_secs 600 ∧
    c3Cfg.expire = Duration.from_secs 600 ∧
    c3Cfg.history_size = 10 :=
  ⟨rfl, from_arg_matches_clap_defaults_override ⟨true, ["h3"]⟩ c3M c3Base
    c3Cfg rfl rfl rfl rfl rfl⟩

/-- C5: the built-in default configuration (`Config::default` via
`Config::default_with_paths`) uses the three independent RFC-recommended
interval defaults: refresh 3600s, retry 600s, expire 7200s. -/
theorem default_config_rfc_intervals (numCpus : Nat) (cache tal home : RPath) :
    ((default_with_paths numCpus cache tal).refresh =
        Duration.from_secs DEFAULT_REFRESH ∧
      (default_with_paths numCpus cache tal).retry =
        Duration.from_secs DEFAULT_RETRY ∧
      (default_with_paths numCpus cache tal).expire =
        Duration.from_secs DEFAULT_EXPIRE) ∧
    DEFAULT_REFRESH = 3600 ∧ DEFAULT_RETRY = 600 ∧ DEFAULT_EXPIRE = 7200 ∧
    (match config_default numCpus (some home) with
     | .ok c => c.refresh = Duration.from_secs 3600 ∧
         c.retry = Duration.from_secs 600 ∧
         c.expire = Duration.from_secs 7200
     | .exit _ => False) :=
  ⟨⟨rfl, rfl, rfl⟩, rfl, rfl, rfl, rfl, rfl, rfl⟩

/-- C4: invalid configuration inputs terminate the process:
an unparseable command-line value, a negative or mistyped config-file
integer, a leftover (unknown) config-file key, and a present but
unreadable config file all end in `process::exit`. -/
theorem config_process_exit_on_error :
    (∀ (α : Type) (parse : String → Option α) (m : ArgMatches) (key v : String),
      m.value_of key = some v → parse v = none →
      from_str_value_of parse m key = .exit 1) ∧
    (∀ (cf : ConfigFile) (key : String) (i : Int),
      assocLookup key cf.content = some (.integer i) → i < 0 →
      cf.take_u64 key = .exit 1) ∧
    (∀ (cf : ConfigFile) (key : String) (v : TomlValue),
      assocLookup key cf.content = some v → (∀ i, v ≠ .integer i) →
      cf.take_u64 key = .exit 1) ∧
    (∀ cf : ConfigFile, cf.content ≠ [] → cf.check_exhausted = .exit 1) ∧
    (∀ (tomlParse : String → Option TomlValue) (p c : RPath),
      ConfigFile.read tomlParse .unreadable p c = .exit 1) := by
  refine ⟨?_, ?_, ?_, ?_, ?_⟩
  · intro α parse m key v hv hp
    unfold from_str_value_of
    simp only [hv, hp]
  · intro cf key i hl hi
    unfold ConfigFile.take_u64 ConfigFile.removeKey
    rw [hl]
    simp [hi]
  · intro cf key v hl hv
    unfold ConfigFile.take_u64 ConfigFile.removeKey
    rw [hl]
    cases v with
    | integer i => exact absurd rfl (hv i)
    | string s => rfl
    | boolean b => rfl
    | array vs => rfl
    | table vs => rfl
  · intro cf hne
    unfold ConfigFile.check_exhausted
    cases hc : cf.content with
    | nil => exact absurd hc hne
    | cons p t => rfl
  · intro tomlParse p c
    rfl

def c4M : ArgMatches :=
  ⟨fun k => if k = "x" then some ["abc"] else none, fun _ => 0⟩

def c4P : RPath := ⟨true, ["w"]⟩

/-- Witness for C4 at concrete invalid inputs. -/
theorem config_process_exit_on_error_witness :
    (from_str_value_of parseU64 c4M "x" = .exit 1) ∧
    (ConfigFile.take_u64 ⟨[("n", .integer (-1))], c4P, c4P⟩ "n" = .exit 1) ∧
    (ConfigFile.take_u64 ⟨[("s", .string "v")], c4P, c4P⟩ "s" = .exit 1) ∧
    (ConfigFile.check_exhausted ⟨[("z", .boolean true)], c4P, c4P⟩
      = .exit 1) ∧
    (ConfigFile.read (fun _ => none) .unreadable c4P c4P = .exit 1) :=
  ⟨config_process_exit_on_error.1 Nat parseU64 c4M "x" "abc" rfl rfl,
    config_process_exit_on_error.2.1 _ "n" (-1) rfl (by decide),
    config_process_exit_on_error.2.2.1 _ "s" (.string "v") rfl
      (fun i h => TomlValue.noConfusion h),
    config_process_exit_on_error.2.2.2.1 _ (by simp),
    config_process_exit_on_error.2.2.2.2 _ c4P c4P⟩

lemma take_path_string {cf : ConfigFile} {key v : String}
    (hl : assocLookup key cf.content = some (.string v)) :
    cf.take_path key =
      .ok (some (cf.dir.join (strToPath v)),
        { cf with content := assocRemove key cf.content }) := by
  unfold ConfigFile.take_path ConfigFile.take_string ConfigFile.removeKey
  simp only [hl]

/-- C6: for a relative config-file path, `ConfigFile::read` stores
`path.join(current_dir).parent()` as the `dir` used for relative paths in
the file; joining a relative path onto an absolute current directory yields
the current directory, so `dir` is the parent of the current working
directory, and `take_path` hence resolves relative values in the file
against the parent of the current working directory. -/
theorem config_file_read_dir_is_cwd_parent
    (tomlParse : String → Option TomlValue) (s : String)
    (path curDir : RPath) (cf : ConfigFile)
    (hrel : path.is_relative = true) (habs : curDir.absolute = true)
    (hread : ConfigFile.read tomlParse (.readable s) path curDir
      = .ok (some cf)) :
    some cf.dir = curDir.parent ∧
    (∀ key v : String,
      assocLookup key cf.content = some (.string v) →
      cf.take_path key =
        .ok (some (cf.dir.join (strToPath v)),
          { cf with content := assocRemove key cf.content })) := by
  refine ⟨?_, fun key v hl => take_path_string hl⟩
  unfold ConfigFile.read at hread
  cases ht : tomlParse s with
  | none => simp only [ht] at hread; cases hread
  | some tv =>
  simp only [ht] at hread
  cases tv with
  | table content =>
    rw [hrel] at hread
    have hjoin : path.join curDir = curDir := by
      unfold RPath.join
      rw [habs]
      rfl
    rw [if_pos rfl, hjoin] at hread
    cases hp : curDir.parent with
    | none => simp only [hp] at hread; cases hread
    | some dir =>
      simp only [hp] at hread
      cases hread
      rfl
  | integer i => cases hread
  | string s' => cases hread
  | boolean b => cases hread
  | array vs => cases hread

def c6TP : String → Option TomlValue :=
  fun _ => some (.table [("log-file", .string "rel")])

def c6CF : ConfigFile :=
  ⟨[("log-file", .string "rel")], ⟨false, ["conf.toml"]⟩, ⟨true, ["a"]⟩⟩

/-- Witness for C6: reading a relative config path from `/a/b` stores
`/a` (the parent of the current directory) as `dir`, and `take_path`
resolves `rel` to `/a/rel`. -/
theorem config_file_read_dir_is_cwd_parent_witness :
    (ConfigFile.read c6TP (.readable "x") ⟨false, ["conf.toml"]⟩
      ⟨true, ["a", "b"]⟩ = .ok (some c6CF)) ∧
    some c6CF.dir = RPath.parent ⟨true, ["a", "b"]⟩ ∧
    c6CF.take_path "log-file" =
      .ok (some ⟨true, ["a", "rel"]⟩,
        ⟨[], ⟨false, ["conf.toml"]⟩, ⟨true, ["a"]⟩⟩) :=
  ⟨rfl,
    (config_file_read_dir_is_cwd_parent c6TP "x" ⟨false, ["conf.toml"]⟩
      ⟨true, ["a", "b"]⟩ c6CF rfl rfl rfl).1,
    (config_file_read_dir_is_cwd_parent c6TP "x" ⟨false, ["conf.toml"]⟩
      ⟨true, ["a", "b"]⟩ c6CF rfl rfl rfl).2 "log-file" "rel" rfl⟩

/-- C7: for consecutive published snapshots, applying the published diff
(removing `removed`, adding `added`) to the old snapshot's VRP set yields
exactly the new snapshot's VRP set. -/
theorem publish_diff_applies (st : Store) (newSet : Finset Vrp) :
    applyDiff st.current.vrps (publishDiff st newSet) = newSet ∧
    (publish st newSet).current.vrps = newSet := by
  constructor
  · unfold applyDiff publishDiff
    ext a
    simp only [Finset.mem_union, Finset.mem_sdiff]
    constructor
    · rintro (⟨_, hnot⟩ | ⟨h, _⟩)
      · by_contra hn
        exact hnot ⟨‹_›, hn⟩
      · exact h
    · intro ha
      by_cases hold : a ∈ st.current.vrps
      · exact Or.inl ⟨hold, fun hm => hm.2 ha⟩
      · exact Or.inr ⟨ha, hold⟩
  · rfl

lemma lastN_length (n : Nat) (l : List Diff) :
    (lastN n l).length = min l.length n := by
  unfold lastN
  rw [List.length_drop]
  omega

lemma publishList_serials (sets : List (Finset Vrp)) :
    ∀ (st : Store) (a : Nat),
      st.current.serial + sets.length < 2 ^ 32 →
      st.current.serial = a + st.history.length →
      st.history.length ≤ st.historySize →
      st.history.map Diff.fromSerial = List.range' a st.history.length →
      (publishList st sets).historySize = st.historySize ∧
      (publishList st sets).current.serial
        = st.current.serial + sets.length ∧
      (publishList st sets).history.length
        = min (st.history.length + sets.length) st.historySize ∧
      ∃ a' : Nat,
        (publishList st sets).current.serial
          = a' + (publishList st sets).history.length ∧
        (publishList st sets).history.map Diff.fromSerial
          = List.range' a' (publishList st sets).history.length := by
  induction sets with
  | nil =>
    intro st a hwrap hser hlen hmap
    refine ⟨rfl, by simp [publishList], ?_, a, ?_, ?_⟩
    · simp only [publishList, List.length_nil]
      omega
    · simpa [publishList] using hser
    · simpa [publishList] using hmap
  | cons s rest ih =>
    intro st a hwrap hser hlen hmap
    have hwrap1 : st.current.serial + 1 < 2 ^ 32 := by
      simp only [List.length_cons] at hwrap
      omega
    have hser1 : (publish st s).current.serial = st.current.serial + 1 :=
      Nat.mod_eq_of_lt hwrap1
    have hmapH : (publish st s).history.map Diff.fromSerial
        = (List.range' a (st.history.length + 1)).drop
            ((st.history.length + 1) - st.historySize) := by
      show (lastN st.historySize
          (st.history ++ [publishDiff st s])).map Diff.fromSerial = _
      unfold lastN
      rw [List.map_drop, List.map_append, hmap]
      simp only [List.map_cons, List.map_nil, List.length_append,
        List.length_cons, List.length_nil]
      rw [show (publishDiff st s).fromSerial = st.current.serial from rfl,
        hser, show a + st.history.length = a + 1 * st.history.length by ring,
        ← List.range'_concat]
    have hlenH : (publish st s).history.length
        = min (st.history.length + 1) st.historySize := by
      show (lastN st.historySize (st.history ++ [publishDiff st s])).length = _
      rw [lastN_length]
      simp only [List.length_append, List.length_cons, List.length_nil]
    have hsizeH : (publish st s).historySize = st.historySize := rfl
    have hstep : publishList st (s :: rest) = publishList (publish st s) rest :=
      rfl
    by_cases hkn : st.history.length < st.historySize
    · have hd0 : (st.history.length + 1) - st.historySize = 0 := by omega
      rw [hd0, List.drop_zero] at hmapH
      have hlen' : (publish st s).history.length = st.history.length + 1 := by
        rw [hlenH]; omega
      obtain ⟨Hsize, Hser, Hlen, a3, H1, H2⟩ := ih (publish st s) a
        (by rw [hser1]; simp only [List.length_cons] at hwrap; omega)
        (by rw [hser1, hlen', hser]; ring)
        (by rw [hlen', hsizeH]; omega)
        (by rw [hlen']; exact hmapH)
      rw [hstep]
      refine ⟨Hsize.trans hsizeH, ?_, ?_, a3, H1, H2⟩
      · rw [Hser, hser1]
        simp only [List.length_cons]
        ring
      · rw [Hlen, hlen', hsizeH]
        simp only [List.length_cons]
        omega
    · have hkeq : st.history.length = st.historySize := by omega
      have hd1 : (st.history.length + 1) - st.historySize = 1 := by omega
      rw [hd1, List.range'_succ] at hmapH
      simp only [List.drop_succ_cons, List.drop_zero] at hmapH
      have hlen' : (publish st s).history.length = st.history.length := by
        rw [hlenH]; omega
      obtain ⟨Hsize, Hser, Hlen, a3, H1, H2⟩ := ih (publish st s) (a + 1)
        (by rw [hser1]; simp only [List.length_cons] at hwrap; omega)
        (by rw [hser1, hlen', hser]; ring)
        (by rw [hlen', hsizeH]; omega)
        (by rw [hlen']; exact hmapH)
      rw [hstep]
      refine ⟨Hsize.trans hsizeH, ?_, ?_, a3, H1, H2⟩
      · rw [Hser, hser1]
        simp only [List.length_cons]
        ring
      · rw [Hlen, hlen', hsizeH]
        simp only [List.length_cons]
        omega

/-- C8: from a freshly initialised store, the history never holds more
than `historySize` diffs, and after `historySize + 1` publications the
earliest retained diff's from-serial is strictly greater than the serial
of the very first published snapshot (FIFO eviction of the oldest). -/
theorem history_bounded_and_first_serial_evicted
    (s0 : Nat) (v0 : Finset Vrp) (h : Nat) (sets : List (Finset Vrp))
    (hwrap : s0 + sets.length < 2 ^ 32) :
    (publishList (initStore s0 v0 h) sets).history.length ≤ h ∧
    (sets.length = h + 1 → 1 ≤ h →
      ∃ d rest,
        (publishList (initStore s0 v0 h) sets).history = d :: rest ∧
        s0 < d.fromSerial) := by
  obtain ⟨Hsize, Hser, Hlen, a', H1, H2⟩ :=
    publishList_serials sets (initStore s0 v0 h) s0
      (by simpa [initStore] using hwrap)
      (by simp [initStore])
      (by simp [initStore])
      (by simp [initStore, List.range'])
  rw [show (initStore s0 v0 h).historySize = h from rfl] at Hsize Hlen
  rw [show (initStore s0 v0 h).current.serial = s0 from rfl] at Hser
  rw [show (initStore s0 v0 h).history.length = 0 from rfl] at Hlen
  constructor
  · rw [Hlen]
    omega
  · intro hsl hh1
    have hL : (publishList (initStore s0 v0 h) sets).history.length = h := by
      rw [Hlen, hsl]
      omega
    have ha' : a' = s0 + 1 := by
      rw [hL] at H1
      rw [Hser, hsl] at H1
      omega
    rw [hL, ha'] at H2
    obtain ⟨hm, rfl⟩ : ∃ m, h = m + 1 := ⟨h - 1, by omega⟩
    rw [List.range'_succ] at H2
    cases hist : (publishList (initStore s0 v0 (hm + 1)) sets).history with
    | nil =>
      rw [hist] at H2
      simp at H2
    | cons d rest =>
      rw [hist] at H2
      simp only [List.map_cons] at H2
      injection H2 with hd _
      exact ⟨d, rest, rfl, by omega⟩

/-- Witness for C8: history size 1, two publications from serial 0. -/
theorem history_bounded_and_first_serial_evicted_witness :
    (publishList (initStore 0 (∅ : Finset Vrp) 1) [∅, ∅]).history.length
      ≤ 1 ∧
    (∃ d rest,
      (publishList (initStore 0 (∅ : Finset Vrp) 1) [∅, ∅]).history
        = d :: rest ∧ 0 < d.fromSerial) :=
  ⟨(history_bounded_and_first_serial_evicted 0 ∅ 1 [∅, ∅] (by decide)).1,
    (history_bounded_and_first_serial_evicted 0 ∅ 1 [∅, ∅]
      (by decide)).2 rfl (by decide)⟩

lemma chainFrom_sound :
    ∀ (hist : List Diff) (s t : Nat) (ds : List Diff),
      chainFrom hist s t = some ds →
      isChain s t ds = true ∧ ds.Sublist hist := by
  intro hist
  induction hist with
  | nil =>
    intro s t ds h
    unfold chainFrom at h
    by_cases hst : s = t
    · rw [if_pos hst] at h
      cases h
      exact ⟨by simp [isChain, hst], List.nil_sublist _⟩
    · rw [if_neg hst] at h
      cases h
  | cons d rest ih =>
    intro s t ds h
    unfold chainFrom at h
    by_cases hst : s = t
    · rw [if_pos hst] at h
      cases h
      exact ⟨by simp [isChain, hst], List.nil_sublist _⟩
    · simp only [if_neg hst] at h
      by_cases hd : d.fromSerial = s
      · rw [if_pos hd] at h
        cases hc : chainFrom rest d.toSerial t with
        | none => rw [hc] at h; cases h
        | some ds' =>
          rw [hc] at h
          cases h
          obtain ⟨hchain', hsub'⟩ := ih d.toSerial t ds' hc
          exact ⟨by simp [isChain, hd, hchain'], hsub'.cons₂ d⟩
      · rw [if_neg hd] at h
        obtain ⟨hchain', hsub'⟩ := ih s t ds h
        exact ⟨hchain', hsub'.cons d⟩

/-- C9: whenever no contiguous diff chain from the client's serial to the
current serial exists in the history (serial too old, unknown, or a gap),
the serial query is answered with a Cache Reset PDU; and whenever diffs are
sent at all, they form a complete contiguous chain of history entries from
the client's serial to the current serial — never a partial or malformed
diff. -/
theorem serial_query_outside_chain_cache_reset
    (st : Store) (clientSerial : Nat)
    (houtside : ∀ ds ∈ st.history.sublists,
      isChain clientSerial st.current.serial ds = false) :
    serveSerialQuery st clientSerial = .cacheReset ∧
    (∀ (c : Nat) (ds : List Diff),
      serveSerialQuery st c = .dataResponse ds →
      isChain c st.current.serial ds = true ∧ ds.Sublist st.history) := by
  constructor
  · have hne : clientSerial ≠ st.current.serial := by
      intro he
      have h0 := houtside [] (by simp)
      simp [isChain, he] at h0
    unfold serveSerialQuery
    rw [if_neg hne]
    cases hc : chainFrom st.history clientSerial st.current.serial with
    | none => rfl
    | some ds =>
      exfalso
      obtain ⟨hchain, hsub⟩ :=
        chainFrom_sound st.history clientSerial st.current.serial ds hc
      have hfalse := houtside ds (List.mem_sublists.mpr hsub)
      rw [hchain] at hfalse
      cases hfalse
  · intro c ds h
    unfold serveSerialQuery at h
    by_cases hce : c = st.current.serial
    · rw [if_pos hce] at h
      cases h
    · rw [if_neg hce] at h
      cases hc : chainFrom st.history c st.current.serial with
      | none => rw [hc] at h; cases h
      | some ds' =>
        rw [hc] at h
        cases h
        exact chainFrom_sound _ _ _ _ hc

/-- Witness for C9: a store at serial 6 retaining only the diff 5 → 6,
queried with the unknown serial 3. -/
theorem serial_query_outside_chain_cache_reset_witness :
    serveSerialQuery ⟨⟨6, (∅ : Finset Vrp)⟩, [⟨5, 6, ∅, ∅⟩], 2⟩ 3
      = .cacheReset :=
  (serial_query_outside_chain_cache_reset
    ⟨⟨6, (∅ : Finset Vrp)⟩, [⟨5, 6, ∅, ∅⟩], 2⟩ 3 (by decide)).1
